import Mathlib

/-!
Verification development for the uplay-g20 local game registry decoder and
status-reconciliation engine.

The definitions below are a shallow embedding of the Python source under
`src/`:

* `convert_data` embeds `LocalParser._convert_data` (src/local.py:339-347).
* `GamesCollection.append` embeds `GamesCollection.append`
  (src/games_collection.py:14-34); registries are modelled as immutable
  lists and in-place field mutation becomes a functional update.
* `parse_log` embeds `GameStatusNotifier._parse_log` (src/local.py:264-281);
  the `psutil.Process` lookup (an OS effect) is passed in as an oracle
  `procExists : Int → Bool`.
* The byte-cursor loops of `LocalParser._parse_configuration_header`,
  `_parse_ownership_header`, `_parse_configuration` and `_parse_ownership`
  (src/local.py:349-479) are embedded with `Option`-propagating bounds
  checks: `none` models a Python `IndexError`, and walk results record
  whether the walk finished, raised, or (in the model) ran out of fuel.
* `GameStatusNotifier._process_data` (src/local.py:306-330) is embedded
  twice, for two different claims: a heap-and-reference model capturing
  Python object identity of the `statuses` dict, and a per-tick fold over
  per-title evaluation outcomes capturing the tick-level `try/except`.

Python `math.ceil(a / b)` is modelled by exact integer ceiling division
`pyCeilDiv`: in the source, `b` is always a power of two (256 or 65536),
and dividing an integer below 2^53 by a power of two is exact in double
precision, so exact ceiling division is a faithful model on the whole
range the decoder can produce.
-/

/-- Python `math.ceil(a / b)` for integer `a` and positive integer `b`:
ceiling division, written via Euclidean (floor) division as `-((-a) / b)`. -/
def pyCeilDiv (a b : Int) : Int := -((-a) / b)

/-- Embedding of `LocalParser._convert_data` (src/local.py:339-347), the
"size normalization" (konrad's formula).  Note that in the `data > 256*256`
branch the second subtraction reads the already-updated value, exactly as
the sequential `data = data - ...` statements do in the source. -/
def convert_data (data : Int) : Int :=
  if data > 256 * 256 then
    let d1 := data - 128 * 256 * pyCeilDiv data (256 * 256)
    d1 - 128 * pyCeilDiv d1 256
  else
    if data > 256 then
      data - 128 * pyCeilDiv data 256
    else
      data

/-- The spec's own normalization formula, transcribed from the spec's
pseudo-code (`normalize(v)`), with its three cases written the way the
claim states them: `v ≤ 256` unchanged; `256 < v ≤ 256*256` one
subtraction; `v > 256*256` both subtractions applied sequentially. -/
def normalize_spec (v : Int) : Int :=
  if v ≤ 256 then v
  else if v ≤ 256 * 256 then v - 128 * pyCeilDiv v 256
  else
    let w := v - 128 * 256 * pyCeilDiv v (256 * 256)
    w - 128 * pyCeilDiv w 256

/-! ## Game registry (GamesCollection) -/

/-- Embedding of the source's `GameStatus` enum (definitions.py is not part
of src/, but the merge logic only distinguishes `Unknown` from the rest,
and the status tracker uses the other three members). -/
inductive GStatus where
  | Unknown
  | NotInstalled
  | Installed
  | Running
deriving DecidableEq, Repr

/-- The slice of a `UbisoftGame` that `GamesCollection.append` reads and
writes: identifier keys, status and ownership flag. -/
structure Game where
  space_id : String
  launch_id : String
  status : GStatus
  owned : Bool
deriving DecidableEq, Repr

namespace GamesCollection

/-- Membership in `set([game.space_id for game in self if game.space_id])`
computed at the top of `GamesCollection.append` (src/games_collection.py:15):
the set holds only non-empty space ids. -/
def inSpaces (R : List Game) (s : String) : Bool :=
  R.any fun g => g.space_id != "" && g.space_id == s

/-- Membership in `set([game.launch_id for game in self if game.launch_id])`
(src/games_collection.py:16). -/
def inLaunches (R : List Game) (l : String) : Bool :=
  R.any fun g => g.launch_id != "" && g.launch_id == l

/-- The condition under which `append` adds `game` as a brand-new entry
(src/games_collection.py:19): neither key occurs in the key sets computed
before the loop. -/
def appendCond (R : List Game) (d : Game) : Bool :=
  !(inSpaces R d.space_id) && !(inLaunches R d.launch_id)

/-- The per-entry match test of the enrichment scan
(src/games_collection.py:24).  It compares the raw fields, empty strings
included, exactly as the source's `==` does. -/
def matchCond (d e : Game) : Bool :=
  d.space_id == e.space_id || d.launch_id == e.launch_id

/-- Functional form of the in-place field updates performed on every
matched entry (src/games_collection.py:25-34): adopt the incoming
launch_id / space_id only when the existing one is empty, promote status
only from `Unknown`, and or-in the owned flag. -/
def enrich (d e : Game) : Game :=
  { e with
    launch_id := if d.launch_id ≠ "" ∧ e.launch_id = "" then d.launch_id else e.launch_id
    space_id := if d.space_id ≠ "" ∧ e.space_id = "" then d.space_id else e.space_id
    status := if d.status ≠ GStatus.Unknown ∧ e.status = GStatus.Unknown then d.status
              else e.status
    owned := e.owned || d.owned }

/-- One iteration of the `for game in games` loop of `append`.  `R0` is the
registry as it stood when `append` was entered: Python computes the two key
sets once, before the loop, so appends within one batch never update them.
The else-branch guard of src/games_collection.py:22 is the exact negation
of the append condition, so the two-branch `if` is faithful.  The scan over
`self` has no `break`: every matched entry is enriched, which the `map`
reproduces. -/
def appendStep (R0 : List Game) (acc : List Game) (d : Game) : List Game :=
  if appendCond R0 d then acc ++ [d]
  else acc.map fun e => if matchCond d e then enrich d e else e

/-- Embedding of `GamesCollection.append` (src/games_collection.py:14-34):
`append R B` is the list content of a collection holding `R` after
`append(B)` returns. -/
def append (R B : List Game) : List Game :=
  B.foldl (appendStep R) R

/-- Spec-side predicate for C4 (from the claim's words, not from source):
no two entries of the registry share the same non-empty `space_id` or the
same non-empty `launch_id`. -/
def dupKeyFree : List Game → Bool
  | [] => true
  | g :: rest =>
      (rest.all fun h =>
        !(g.space_id != "" && g.space_id == h.space_id) &&
        !(g.launch_id != "" && g.launch_id == h.launch_id)) &&
      dupKeyFree rest

/-- A descriptor carrying only a space id, used to exhibit within-batch
duplication. -/
def spaceOnlyGame : Game :=
  { space_id := "s1", launch_id := "", status := GStatus.Unknown, owned := false }

end GamesCollection

/-! ## Log-tail scan (GameStatusNotifier._parse_log) -/

/-- Anchored substring test: does `pat` lead the list `s`? -/
def leadsWith : List Char → List Char → Bool
  | [], _ => true
  | _ :: _, [] => false
  | a :: pat, b :: s => a == b && leadsWith pat s

/-- Python's `pat in s` substring containment on strings. -/
def containsSub (pat : List Char) : List Char → Bool
  | [] => leadsWith pat []
  | c :: rest => leadsWith pat (c :: rest) || containsSub pat rest

/-- Leading decimal-digit run of a character list, and the remainder. -/
def takeDigits : List Char → List Char × List Char
  | [] => ([], [])
  | c :: rest =>
      if c.isDigit then
        let p := takeDigits rest
        (c :: p.1, p.2)
      else ([], c :: rest)

/-- Numeric value of a digit run, as `int()` computes it. -/
def digitsToNat (ds : List Char) : Nat :=
  ds.foldl (fun acc c => acc * 10 + (c.toNat - 48)) 0

/-- Completion of the regex `Game with process id ([-+]?[0-9]+) has been
started` immediately after an occurrence of its literal prefix: an optional
sign, one or more digits, then the literal ` has been started`.  Greedy
digit matching cannot succeed by backtracking to a shorter digit run, since
the character right after a shorter run is again a digit, so this
deterministic reading is exactly the regex's semantics. -/
def pidTailAt (s : List Char) : Option Int :=
  let signed : Option Char × List Char :=
    match s with
    | c :: rest => if c = '-' ∨ c = '+' then (some c, rest) else (none, s)
    | [] => (none, [])
  let p := takeDigits signed.2
  if p.1.isEmpty then none
  else if leadsWith " has been started".data p.2 then
    let v : Int := Int.ofNat (digitsToNat p.1)
    some (if signed.1 = some '-' then -v else v)
  else none

/-- Embedding of
`re.search('Game with process id ([-+]?[0-9]+) has been started', line)`
from src/local.py:271-272: try each start position left to right; at an
occurrence of the literal prefix (21 characters), try to complete the
match, else move one position right, as `re.search` does. -/
def pidSearch : List Char → Option Int
  | [] => none
  | c :: rest =>
      if leadsWith "Game with process id ".data (c :: rest) then
        match pidTailAt ((c :: rest).drop 21) with
        | some v => some v
        | none => pidSearch rest
      else pidSearch rest

/-- The backward `while line > 0` scan of `GameStatusNotifier._parse_log`
(src/local.py:264-281), indexed by the line index it inspects next.
`procExists` is the oracle for `psutil.Process(pid)`: `false` models the
constructor raising (caught by the function's blanket `except`, so the
call returns False), `true` models a successful lookup followed by
`watch_process` and `return True`.  A `none` from `pidSearch` models
`.group(1)` raising `AttributeError` after a failed `re.search`, likewise
caught and turned into False.  A pid of 0 is falsy, so `if pid:` skips the
watch and the loop continues. -/
def parseLogScan (procExists : Int → Bool) (launch_id : List Char)
    (line_list : List (List Char)) : Nat → Bool
  | 0 => false
  | j + 1 =>
      let line := line_list.getD (j + 1) []
      if containsSub "disconnected".data line then false
      else if containsSub "has been started with product id".data line &&
          containsSub launch_id line then
        match pidSearch line with
        | none => false
        | some pid =>
            if pid ≠ 0 then procExists pid
            else parseLogScan procExists launch_id line_list j
      else parseLogScan procExists launch_id line_list j

/-- Embedding of `GameStatusNotifier._parse_log`: the scan starts at
`len(line_list) - 1` and runs while the index is strictly positive. -/
def parse_log (procExists : Int → Bool) (launch_id : List Char)
    (line_list : List (List Char)) : Bool :=
  parseLogScan procExists launch_id line_list (line_list.length - 1)

/-! ## Binary record cursor and file walks (LocalParser) -/

/-- Python slicing `content[i:]` for an arbitrary (possibly negative)
integer `i`: a negative start counts from the end, clamped at position 0. -/
def pySliceFrom (content : List Nat) (i : Int) : List Nat :=
  if 0 ≤ i then content.drop i.toNat
  else content.drop (content.length - (-i).toNat)

/-- Python indexing `content[i]` with the exception modelled as `none`: a
negative index counts from the end; anything out of range raises. -/
def pyIndex (content : List Nat) (i : Int) : Option Nat :=
  let j : Int := if i < 0 then (content.length : Int) + i else i
  if 0 ≤ j then content[j.toNat]? else none

/-- Python dict assignment `d[k] = v`: replace in place when the key
exists (dicts preserve insertion order), else append at the end. -/
def pyDictSet {κ ν : Type} [DecidableEq κ] : List (κ × ν) → κ → ν → List (κ × ν)
  | [], k, v => [(k, v)]
  | (k', v') :: rest, k, v =>
      if k' = k then (k, v) :: rest else (k', v') :: pyDictSet rest k v

/-- The size-accumulation loop
`while header[offset] != 0x08 or record_size == 0` of
src/local.py:362-366 (configuration, primary layout) and
src/local.py:403-407 (ownership).  State is (offset, multiplier,
record_size, tmp_size); `none` models an IndexError escaping the loop.
The fuel argument only bounds the recursion: with fuel above the buffer
length the loop always stops or raises first, since the offset grows by
one per iteration. -/
def sizeLoopFirst (h : List Nat) : Nat → Nat → Nat → Nat → Nat → Option (Nat × Nat × Nat)
  | 0, _, _, _, _ => none
  | fuel + 1, offset, multiplier, record_size, tmp_size =>
      match h[offset]? with
      | none => none
      | some b =>
          if b ≠ 8 ∨ record_size = 0 then
            sizeLoopFirst h fuel (offset + 1) (multiplier * 256)
              (record_size + b * multiplier) (tmp_size + 1)
          else some (record_size, offset, tmp_size)

/-- The secondary-layout size loop `while header[offset] != 0x08 or
(header[offset] == 0x08 and header[offset + 1] == 0x08)` of
src/local.py:356-360.  Python's `or`/`and` short-circuit, so the peek at
`header[offset + 1]` happens (and can raise) only when the current byte is
0x08. -/
def sizeLoopSecond (h : List Nat) : Nat → Nat → Nat → Nat → Nat → Option (Nat × Nat × Nat)
  | 0, _, _, _, _ => none
  | fuel + 1, offset, multiplier, record_size, tmp_size =>
      match h[offset]? with
      | none => none
      | some b =>
          if b ≠ 8 then
            sizeLoopSecond h fuel (offset + 1) (multiplier * 256)
              (record_size + b * multiplier) (tmp_size + 1)
          else
            match h[offset + 1]? with
            | none => none
            | some b2 =>
                if b2 = 8 then
                  sizeLoopSecond h fuel (offset + 1) (multiplier * 256)
                    (record_size + b * multiplier) (tmp_size + 1)
                else some (record_size, offset, tmp_size)

/-- The launch-id loop `while header[offset] != 0x10 or
header[offset + 1] == 0x10` of src/local.py:376-379 and 417-420, with the
same short-circuit peek behaviour. -/
def launchIdLoop (h : List Nat) : Nat → Nat → Nat → Nat → Option (Nat × Nat)
  | 0, _, _, _ => none
  | fuel + 1, offset, multiplier, launch_id =>
      match h[offset]? with
      | none => none
      | some b =>
          if b ≠ 0x10 then
            launchIdLoop h fuel (offset + 1) (multiplier * 256) (launch_id + b * multiplier)
          else
            match h[offset + 1]? with
            | none => none
            | some b2 =>
                if b2 = 0x10 then
                  launchIdLoop h fuel (offset + 1) (multiplier * 256) (launch_id + b * multiplier)
                else some (launch_id, offset)

/-- The field-end scan `while header[offset] != 0x1A or (header[offset] ==
0x1A and header[offset + 1] == 0x1A)` of src/local.py:385-386. -/
def skip1ALoop (h : List Nat) : Nat → Nat → Option Nat
  | 0, _ => none
  | fuel + 1, offset =>
      match h[offset]? with
      | none => none
      | some b =>
          if b ≠ 0x1A then skip1ALoop h fuel (offset + 1)
          else
            match h[offset + 1]? with
            | none => none
            | some b2 =>
                if b2 = 0x1A then skip1ALoop h fuel (offset + 1)
                else some offset

/-- The second-id loop `while header[offset] != 0x22` of
src/local.py:428-431 (no peek). -/
def idTwoLoop (h : List Nat) : Nat → Nat → Nat → Nat → Option (Nat × Nat)
  | 0, _, _, _ => none
  | fuel + 1, offset, multiplier, acc =>
      match h[offset]? with
      | none => none
      | some b =>
          if b ≠ 0x22 then idTwoLoop h fuel (offset + 1) (multiplier * 256) (acc + b * multiplier)
          else some (acc, offset)

/-- Embedding of `LocalParser._parse_configuration_header`
(src/local.py:349-395): returns `(record_size - offset, launch_id,
offset + tmp_size + 1)` after the under-128 adjustment; `none` is an
IndexError escaping to the caller.  In the adjusted branch Python first
does `tmp_size -= 1` then `record_size += 1` and only then builds the
return tuple. -/
def parse_configuration_header (header : List Nat) (second_eight : Bool) :
    Option (Int × Int × Int) :=
  let fuel := header.length + 1
  let sizeRes :=
    if second_eight then sizeLoopSecond header fuel 1 1 0 0
    else sizeLoopFirst header fuel 1 1 0 0
  match sizeRes with
  | none => none
  | some (rs_raw, offset, tmp_raw) =>
      let record_size := convert_data (rs_raw : Int)
      let offset := offset + 1
      match launchIdLoop header fuel offset 1 0 with
      | none => none
      | some (lid_raw, offset) =>
          let launch_id := convert_data (lid_raw : Int)
          let offset := offset + 1
          match skip1ALoop header fuel offset with
          | none => none
          | some offset =>
              if record_size - (offset : Int) < 128 ∧ 128 ≤ record_size then
                some (record_size + 1 - (offset : Int), launch_id,
                  (offset : Int) + ((tmp_raw : Int) - 1) + 1)
              else
                some (record_size - (offset : Int), launch_id,
                  (offset : Int) + (tmp_raw : Int) + 1)

/-- Embedding of `LocalParser._parse_ownership_header`
(src/local.py:397-436).  The outer `none` is an IndexError; the inner
`none` is the source's `return None, None, None` taken when the record
does not start with 0x0a. -/
def parse_ownership_header (header : List Nat) : Option (Option (Int × Int × Int)) :=
  let fuel := header.length + 1
  match header[0]? with
  | none => none
  | some b0 =>
      if b0 = 0x0a then
        match sizeLoopFirst header fuel 1 1 0 0 with
        | none => none
        | some (rs_raw, offset, tmp_size) =>
            let record_size := convert_data (rs_raw : Int)
            let offset := offset + 1
            match launchIdLoop header fuel offset 1 0 with
            | none => none
            | some (lid_raw, offset) =>
                let launch_id := convert_data (lid_raw : Int)
                let offset := offset + 1
                match idTwoLoop header fuel offset 1 0 with
                | none => none
                | some (lid2_raw, _off) =>
                    some (some (launch_id, convert_data (lid2_raw : Int),
                      record_size + (tmp_size : Int) + 1))
      else some none

/-- Outcome of a whole-file decode walk: finished normally, raised (with
the records accumulated at the moment it raised), or exceeded the fuel
bound — the model's stand-in for a diverging Python loop, reachable only
when a record's computed advance is non-positive. -/
inductive WalkOutcome (α : Type) where
  | ok (records : α)
  | excAt (records : α)
  | fuelOut
deriving DecidableEq, Repr

/-- The record loop of `LocalParser._parse_ownership`
(src/local.py:466-475): collect `launch_id`, and `launch_id_2` when it
differs; a header whose leading byte is not 0x0a (`launch_id is None`) or
a zero `launch_id` is falsy in `if launch_id:` and breaks the loop. -/
def ownershipWalk (content : List Nat) :
    Nat → Int → List Int → WalkOutcome (List Int)
  | 0, _, _ => .fuelOut
  | fuel + 1, global_offset, records =>
      if global_offset < (content.length : Int) then
        let data := pySliceFrom content global_offset
        match parse_ownership_header data with
        | none => .excAt records
        | some none => .ok records
        | some (some (launch_id, launch_id2, record_size)) =>
            if launch_id ≠ 0 then
              ownershipWalk content fuel (global_offset + record_size)
                (records ++ [launch_id] ++
                  (if launch_id2 ≠ launch_id then [launch_id2] else []))
            else .ok records
      else .ok records

/-- Embedding of `LocalParser._parse_ownership` (src/local.py:461-479):
start at the fixed 0x108 preamble skip; the blanket `except` maps a raised
walk to `[]`.  The `none` result stands for a diverging loop (no Python
return at all). -/
def parse_ownership (content : List Nat) : Option (List Int) :=
  match ownershipWalk content (content.length + 1) 0x108 [] with
  | .ok records => some records
  | .excAt _ => some []
  | .fuelOut => none

/-- The record loop of `LocalParser._parse_configuration`
(src/local.py:442-455).  `records` is the insertion-ordered dict keyed by
launch_id with `(size, offset)` values.  In the secondary-header fallback
the re-parsed size and header size only move the cursor (from the saved
`global_offset_tmp`); the re-parsed launch_id is never written into the
dict, exactly as in the source. -/
def configWalk (content : List Nat) :
    Nat → Int → List (Int × Int × Int) → WalkOutcome (List (Int × Int × Int))
  | 0, _, _ => .fuelOut
  | fuel + 1, global_offset, records =>
      if global_offset < (content.length : Int) then
        let data := pySliceFrom content global_offset
        match parse_configuration_header data false with
        | none => .excAt records
        | some (object_size, launch_id, header_size) =>
            let records := pyDictSet records launch_id (object_size, global_offset + header_size)
            let got := global_offset
            let go2 := global_offset + object_size + header_size
            if go2 < (content.length : Int) then
              match pyIndex content go2 with
              | none => .excAt records
              | some b =>
                  if b ≠ 0x0A then
                    match parse_configuration_header data true with
                    | none => .excAt records
                    | some (os2, _lid2, hs2) =>
                        configWalk content fuel (got + os2 + hs2) records
                  else configWalk content fuel go2 records
            else configWalk content fuel go2 records
      else .ok records

/-- Embedding of `LocalParser._parse_configuration` (src/local.py:438-459):
the blanket `except` maps a raised walk to the empty dict, discarding the
accumulated records. -/
def parse_configuration (content : List Nat) : Option (List (Int × Int × Int)) :=
  match configWalk content (content.length + 1) 0 [] with
  | .ok records => some records
  | .excAt _ => some []
  | .fuelOut => none

/-- An ownership file image: the 0x108-byte preamble, one well-formed
record (ids 5 and 10), then a record whose header starts with 0x0a but
runs off the end of the buffer, raising an IndexError mid-walk. -/
def ownershipDemoBytes : List Nat :=
  List.replicate 0x108 0 ++ [0x0a, 3, 8, 5, 16, 10, 0x22]

/-- A configuration file image whose single record declares a payload size
of 250 bytes against an 8-byte buffer: the cursor advance overshoots the
end, the walk simply terminates, and no exception is raised. -/
def configDemoBytes : List Nat := [10, 0, 2, 8, 9, 16, 26, 0]

/-! ## Status polling tick (GameStatusNotifier._process_data) -/

/-- Truthiness of a per-title evaluation outcome. -/
def evalOk {ε α : Type} : Except ε α → Bool
  | Except.ok _ => true
  | Except.error _ => false

/-- One polling tick's `for launch_id, game in self.games.items()` loop
(src/local.py:311-324), abstracted over the outcome of each title's
evaluation: the loop body calls out to `get_steam_game_status`, the
registry probes and the log-scan machinery, any of which may raise, so
each title's evaluation is given as an `Except` outcome.  The single `try`
wraps the whole loop and its `except` sits outside it
(src/local.py:310-327): an error outcome therefore ends the loop — the
statuses written so far are kept, the remaining titles of the tick are
never evaluated, and the polling loop itself survives to the next tick. -/
def tickRun (statuses : List (String × GStatus)) :
    List (String × Except Unit GStatus) → List (String × GStatus)
  | [] => statuses
  | (launch_id, outcome) :: rest =>
      match outcome with
      | Except.ok st => tickRun (pyDictSet statuses launch_id st) rest
      | Except.error _ => statuses

/-- Heap-and-reference model of `GameStatusNotifier`'s shared state: the
heap holds dict objects, `localRef` is the `statuses` local created once,
before `while True` (src/local.py:307), and `publishedRef` is
`self.statuses` (src/local.py:239, reassigned at src/local.py:330).
References expose Python object identity: `self.statuses = statuses`
copies a reference, not the mapping. -/
structure NotifierState where
  heap : List (List (String × GStatus))
  localRef : Nat
  publishedRef : Nat
deriving DecidableEq, Repr

/-- State after `__init__` (`self.statuses = {}` is object 0) and the top
of `_process_data` (the local `statuses = {}` is object 1). -/
def notifierInit : NotifierState :=
  { heap := [[], []], localRef := 1, publishedRef := 0 }

/-- One write `statuses[launch_id] = ...` into the dict object designated
by the tick's local reference (src/local.py:314/320/324). -/
def tickWrite (s : NotifierState) (kv : String × GStatus) : NotifierState :=
  { s with heap := s.heap.set s.localRef (pyDictSet (s.heap.getD s.localRef []) kv.1 kv.2) }

/-- The per-title writes of one tick, in order. -/
def tickWrites (s : NotifierState) (evals : List (String × GStatus)) : NotifierState :=
  evals.foldl tickWrite s

/-- A full tick: all per-title writes, then `self.statuses = statuses`
(src/local.py:330) — a reference assignment, not a copy. -/
def tick (s : NotifierState) (evals : List (String × GStatus)) : NotifierState :=
  let s2 := tickWrites s evals
  { s2 with publishedRef := s2.localRef }

/-- What a reader holding reference `r` observes in state `s`. -/
def readRef (s : NotifierState) (r : Nat) : List (String × GStatus) :=
  s.heap.getD r []

/-! ## Theorems -/

/-- Sanity check that `pyCeilDiv` really is the ceiling of the exact
quotient, characterized order-theoretically. -/
theorem pyCeilDiv_is_ceil (a b : Int) (hb : 0 < b) :
    a ≤ b * pyCeilDiv a b ∧ b * pyCeilDiv a b < a + b := by
  have hmod := Int.emod_nonneg (-a) (by omega : b ≠ 0)
  have hlt := Int.emod_lt_of_pos (-a) hb
  have hdiv := Int.ediv_add_emod (-a) b
  unfold pyCeilDiv
  constructor <;> linarith [hdiv, hmod, hlt]

/-- C1: for every decoded integer `v`, the cursor's size normalization
`LocalParser._convert_data` equals the spec's `normalize(v)` formula: when
`v > 256*256`, subtract `128*256*ceil(v/(256*256))` and then (on the
updated value, per the spec's sequential pseudo-code) `128*ceil(v/256)`;
when `256 < v ≤ 256*256`, subtract only `128*ceil(v/256)`; when `v ≤ 256`,
`v` is returned unchanged. -/
theorem convert_data_matches_spec (v : Int) : convert_data v = normalize_spec v := by
  unfold convert_data normalize_spec
  split_ifs <;> first | rfl | omega

namespace GamesCollection

theorem foldl_appendStep_length (R0 B acc : List Game) :
    (B.foldl (appendStep R0) acc).length =
      acc.length + B.countP (fun d => appendCond R0 d) := by
  induction B generalizing acc with
  | nil => simp
  | cons d B ih =>
      simp only [List.foldl_cons, List.countP_cons, ih]
      unfold appendStep
      by_cases h : appendCond R0 d
      · simp [h]; omega
      · simp [h]

theorem enrich_space_id_of_ne (d e : Game) (h : e.space_id ≠ "") :
    (enrich d e).space_id = e.space_id := by
  unfold enrich; simp [h]

theorem enrich_launch_id_of_ne (d e : Game) (h : e.launch_id ≠ "") :
    (enrich d e).launch_id = e.launch_id := by
  unfold enrich; simp [h]

theorem inSpaces_appendStep (R0 acc : List Game) (d : Game) (s : String)
    (h : inSpaces acc s = true) : inSpaces (appendStep R0 acc d) s = true := by
  unfold appendStep
  by_cases hc : appendCond R0 d
  · simp only [hc, if_true]
    unfold inSpaces at h ⊢
    simp [List.any_append, h]
  · simp only [hc, if_false, Bool.false_eq_true]
    unfold inSpaces at h ⊢
    rw [List.any_eq_true] at h
    obtain ⟨g, hg, hp⟩ := h
    rw [List.any_map, List.any_eq_true]
    refine ⟨g, hg, ?_⟩
    have hs : g.space_id ≠ "" := by
      have hp' := hp
      simp only [Bool.and_eq_true, bne_iff_ne, beq_iff_eq] at hp'
      exact hp'.1
    by_cases hm : matchCond d g
    · simpa [Function.comp, hm, enrich_space_id_of_ne d g hs] using hp
    · simpa [Function.comp, hm] using hp

theorem inLaunches_appendStep (R0 acc : List Game) (d : Game) (l : String)
    (h : inLaunches acc l = true) : inLaunches (appendStep R0 acc d) l = true := by
  unfold appendStep
  by_cases hc : appendCond R0 d
  · simp only [hc, if_true]
    unfold inLaunches at h ⊢
    simp [List.any_append, h]
  · simp only [hc, if_false, Bool.false_eq_true]
    unfold inLaunches at h ⊢
    rw [List.any_eq_true] at h
    obtain ⟨g, hg, hp⟩ := h
    rw [List.any_map, List.any_eq_true]
    refine ⟨g, hg, ?_⟩
    have hs : g.launch_id ≠ "" := by
      have hp' := hp
      simp only [Bool.and_eq_true, bne_iff_ne, beq_iff_eq] at hp'
      exact hp'.1
    by_cases hm : matchCond d g
    · simpa [Function.comp, hm, enrich_launch_id_of_ne d g hs] using hp
    · simpa [Function.comp, hm] using hp

theorem inSpaces_foldl (R0 B : List Game) (acc : List Game) (s : String)
    (h : inSpaces acc s = true) :
    inSpaces (B.foldl (appendStep R0) acc) s = true := by
  induction B generalizing acc with
  | nil => simpa using h
  | cons d B ih => exact ih _ (inSpaces_appendStep R0 acc d s h)

theorem inLaunches_foldl (R0 B : List Game) (acc : List Game) (l : String)
    (h : inLaunches acc l = true) :
    inLaunches (B.foldl (appendStep R0) acc) l = true := by
  induction B generalizing acc with
  | nil => simpa using h
  | cons d B ih => exact ih _ (inLaunches_appendStep R0 acc d l h)

theorem key_covered_foldl (R0 B : List Game) (acc : List Game)
    (hs : ∀ s, inSpaces R0 s = true → inSpaces acc s = true)
    (hl : ∀ l, inLaunches R0 l = true → inLaunches acc l = true)
    (d : Game) (hd : d ∈ B) (hkey : d.space_id ≠ "" ∨ d.launch_id ≠ "") :
    inSpaces (B.foldl (appendStep R0) acc) d.space_id = true ∨
      inLaunches (B.foldl (appendStep R0) acc) d.launch_id = true := by
  induction B generalizing acc with
  | nil => cases hd
  | cons g B ih =>
      rcases List.mem_cons.mp hd with rfl | hd'
      · simp only [List.foldl_cons]
        by_cases hc : appendCond R0 d
        · rcases hkey with hks | hkl
          · left
            refine inSpaces_foldl R0 B _ _ ?_
            unfold appendStep
            simp [hc, inSpaces, List.any_append, hks]
          · right
            refine inLaunches_foldl R0 B _ _ ?_
            unfold appendStep
            simp [hc, inLaunches, List.any_append, hkl]
        · have hkey2 : inSpaces R0 d.space_id = true ∨ inLaunches R0 d.launch_id = true := by
            cases h1 : inSpaces R0 d.space_id with
            | true => exact Or.inl rfl
            | false =>
                cases h2 : inLaunches R0 d.launch_id with
                | true => exact Or.inr rfl
                | false =>
                    exact absurd (by simp [appendCond, h1, h2] : appendCond R0 d = true) hc
          rcases hkey2 with h | h
          · exact Or.inl (inSpaces_foldl R0 B _ _
              (inSpaces_appendStep R0 acc d _ (hs _ h)))
          · exact Or.inr (inLaunches_foldl R0 B _ _
              (inLaunches_appendStep R0 acc d _ (hl _ h)))
      · simp only [List.foldl_cons]
        exact ih _ (fun s h => inSpaces_appendStep R0 acc g s (hs s h))
          (fun l h => inLaunches_appendStep R0 acc g l (hl l h)) hd'

end GamesCollection

/-- C4 counterexample: the claim "after merge(batch), no two entries share
the same non-empty space_id ... including when two descriptors within the
same incoming batch carry the same key" is false on the code.  Merging the
batch `[spaceOnlyGame, spaceOnlyGame]` into an empty registry appends both
descriptors, because the key sets are computed once before the loop and
never updated by appends, so the resulting registry has two entries with
the same non-empty space_id `"s1"`. -/
theorem append_within_batch_duplicate :
    GamesCollection.append [] [GamesCollection.spaceOnlyGame, GamesCollection.spaceOnlyGame] =
      [GamesCollection.spaceOnlyGame, GamesCollection.spaceOnlyGame] ∧
    GamesCollection.dupKeyFree
      (GamesCollection.append []
        [GamesCollection.spaceOnlyGame, GamesCollection.spaceOnlyGame]) = false := by
  constructor <;> decide

/-- C4 amended: `append` adds exactly those batch descriptors whose
space_id and launch_id both miss the pre-merge registry's non-empty key
sets — in particular a descriptor matching either key of an existing entry
never creates a second entry.  Duplicates can still arise when two
descriptors inside one batch carry the same fresh key, since the key sets
are computed once before the loop. -/
theorem append_length_characterization (R B : List Game) :
    (GamesCollection.append R B).length =
      R.length + B.countP (fun d => GamesCollection.appendCond R d) :=
  GamesCollection.foldl_appendStep_length R B R

/-- C5: merging the same descriptor batch twice yields the same entry count
as merging it once, provided every descriptor carries at least one
non-empty identifier.  After the first pass each descriptor's key is
present in the registry (either it was appended, or it matched keys that
enrichment and appending only ever extend), so the second pass appends
nothing. -/
theorem append_idempotent_length (R B : List Game)
    (hB : ∀ d ∈ B, d.space_id ≠ "" ∨ d.launch_id ≠ "") :
    (GamesCollection.append (GamesCollection.append R B) B).length =
      (GamesCollection.append R B).length := by
  have hcov : ∀ d ∈ B, GamesCollection.appendCond (GamesCollection.append R B) d = false := by
    intro d hd
    have h := GamesCollection.key_covered_foldl R B R (fun _ h => h) (fun _ h => h) d hd (hB d hd)
    unfold GamesCollection.appendCond GamesCollection.append
    rcases h with h | h <;> simp [h]
  rw [append_length_characterization]
  have : B.countP (fun d => GamesCollection.appendCond (GamesCollection.append R B) d) = 0 := by
    rw [List.countP_eq_zero]
    intro d hd
    simp [hcov d hd]
  omega

/-- C5 witness: a concrete registry and batch satisfying the hypothesis. -/
theorem append_idempotent_length_witness :
    (GamesCollection.append
        (GamesCollection.append [] [GamesCollection.spaceOnlyGame]) [GamesCollection.spaceOnlyGame]).length =
      (GamesCollection.append [] [GamesCollection.spaceOnlyGame]).length :=
  append_idempotent_length [] [GamesCollection.spaceOnlyGame] (by decide)

/-- C6: for an existing entry `E` and incoming descriptor `D` sharing the
(non-empty) launch_id key, with `E.space_id` empty and `D.space_id` set,
`merge([D])` leaves the entry count unchanged and the entry at E's position
now carries `D.space_id`.  Non-emptiness of the shared launch_id is the
data-model reading of `E.launch_id == D.launch_id`: the spec's descriptor
invariant requires at least one non-empty key, and `E.space_id` is empty
here, so `E.launch_id` cannot be empty as well. -/
theorem append_enriches_space_id (R1 R2 : List Game) (E d : Game)
    (hl : E.launch_id = d.launch_id) (hlne : d.launch_id ≠ "")
    (hse : E.space_id = "") (hds : d.space_id ≠ "") :
    (GamesCollection.append (R1 ++ E :: R2) [d]).length = (R1 ++ E :: R2).length ∧
    (GamesCollection.append (R1 ++ E :: R2) [d])[R1.length]? =
      some (GamesCollection.enrich d E) ∧
    (GamesCollection.enrich d E).space_id = d.space_id := by
  have hcond : GamesCollection.appendCond (R1 ++ E :: R2) d = false := by
    have hin : GamesCollection.inLaunches (R1 ++ E :: R2) d.launch_id = true := by
      unfold GamesCollection.inLaunches
      rw [List.any_eq_true]
      refine ⟨E, by simp, ?_⟩
      simp [hl, hlne]
    unfold GamesCollection.appendCond
    simp [hin]
  have hmatch : GamesCollection.matchCond d E = true := by
    unfold GamesCollection.matchCond
    simp [hl]
  refine ⟨?_, ?_, ?_⟩
  · show (GamesCollection.appendStep (R1 ++ E :: R2) (R1 ++ E :: R2) d).length = _
    unfold GamesCollection.appendStep
    simp [hcond]
  · show (GamesCollection.appendStep (R1 ++ E :: R2) (R1 ++ E :: R2) d)[R1.length]? = _
    unfold GamesCollection.appendStep
    rw [hcond]
    simp only [Bool.false_eq_true, if_false]
    rw [List.map_append, List.map_cons]
    rw [List.getElem?_append_right (by simp)]
    simp [hmatch]
  · unfold GamesCollection.enrich
    simp [hse, hds]

/-- C6 witness: a one-entry registry holding a locally discovered entry
(launch_id only) enriched by a remote descriptor carrying the space id. -/
theorem append_enriches_space_id_witness :
    (GamesCollection.append [⟨"", "l1", GStatus.Unknown, false⟩]
        [⟨"s1", "l1", GStatus.Unknown, true⟩]).length =
      ([⟨"", "l1", GStatus.Unknown, false⟩] : List Game).length ∧
    (GamesCollection.append [⟨"", "l1", GStatus.Unknown, false⟩]
        [⟨"s1", "l1", GStatus.Unknown, true⟩])[(0 : Nat)]? =
      some (GamesCollection.enrich ⟨"s1", "l1", GStatus.Unknown, true⟩
        ⟨"", "l1", GStatus.Unknown, false⟩) ∧
    (GamesCollection.enrich ⟨"s1", "l1", GStatus.Unknown, true⟩
        ⟨"", "l1", GStatus.Unknown, false⟩).space_id =
      Game.space_id ⟨"s1", "l1", GStatus.Unknown, true⟩ :=
  append_enriches_space_id [] [] ⟨"", "l1", GStatus.Unknown, false⟩
    ⟨"s1", "l1", GStatus.Unknown, true⟩ (by decide) (by decide) (by decide) (by decide)

/-- C9: for the two-line log tail of the scenario, the backward scan for a
title with launch_id "77" returns False (not running), for every process
oracle.  Mechanically: the scan starts at the last line (index 1), which
contains the start marker and "77", so the pid regex is attempted; the
line has no `Game with process id ... has been started` text, `re.search`
returns None, `.group(1)` raises, and the blanket `except` returns False.
Index 0 (the disconnect line) is never inspected, because the loop runs
only while the index is strictly positive. -/
theorem parse_log_scenario_not_running (procExists : Int → Bool) :
    parse_log procExists "77".data
      ["...disconnected...".data,
       "...has been started with product id 77 ... launch_id=77...".data] = false := by
  rfl

/-- C10: the backward scan never examines the first (oldest) line of the
tail: replacing line 0 never changes the result, and every one-line tail
yields False regardless of that line's content, for every game and every
process oracle. -/
theorem parse_log_ignores_first_line (procExists : Int → Bool) (launch_id : List Char) :
    (∀ x y rest, parse_log procExists launch_id (x :: rest) =
        parse_log procExists launch_id (y :: rest)) ∧
    (∀ l, parse_log procExists launch_id [l] = false) := by
  constructor
  · intro x y rest
    have hscan : ∀ j, parseLogScan procExists launch_id (x :: rest) j =
        parseLogScan procExists launch_id (y :: rest) j := by
      intro j
      induction j with
      | zero => rfl
      | succ j ih => simp only [parseLogScan, List.getD_cons_succ, ih]
    unfold parse_log
    simpa using hscan (rest.length + 1 - 1)
  · intro l
    rfl

/-- C8: for every ownership buffer strictly shorter than 0x108 bytes, the
decoder returns an empty owned-id list and raises no error — the walk's
guard `global_offset < len(content)` fails immediately, so the walk ends
in `ok []` without ever touching the exception branch. -/
theorem parse_ownership_short_empty (content : List Nat)
    (h : content.length < 0x108) :
    ownershipWalk content (content.length + 1) 0x108 [] = .ok [] ∧
    parse_ownership content = some [] := by
  have hg : ¬ ((0x108 : Int) < (content.length : Int)) := by
    omega
  have hw : ownershipWalk content (content.length + 1) 0x108 [] = .ok [] := by
    unfold ownershipWalk
    simp [hg]
  refine ⟨hw, ?_⟩
  unfold parse_ownership
  rw [hw]

/-- C8 witness: the empty buffer. -/
theorem parse_ownership_short_empty_witness :
    ownershipWalk [] (List.length ([] : List Nat) + 1) 0x108 [] = .ok [] ∧
    parse_ownership [] = some [] :=
  parse_ownership_short_empty [] (by decide)

/-- C2 counterexample: decoding `ownershipDemoBytes` raises an IndexError
mid-walk after collecting the non-empty partial list [5, 10], and
`_parse_ownership` then returns the empty list, not the partial list — so
the claim that a decoder hit by a mid-walk decode error returns the
records accumulated so far is false on the code. -/
theorem parse_ownership_discards_partial :
    ownershipWalk ownershipDemoBytes (ownershipDemoBytes.length + 1) 0x108 [] =
      .excAt [5, 10] ∧
    parse_ownership ownershipDemoBytes = some [] ∧
    ([5, 10] : List Int) ≠ [] := by
  refine ⟨?_, ?_, by decide⟩
  · set_option maxRecDepth 4000 in decide
  · set_option maxRecDepth 4000 in decide

/-- C2 amended: a decode error partway through a file walk never crashes
the caller, but the accumulated records survive only when no exception is
raised.  In general, whenever the ownership walk raises, `_parse_ownership`
returns `[]`, discarding the partial collection (the configuration
decoder's `except` likewise returns its empty dict).  A configuration file
whose final record's declared payload size exceeds the remaining buffer
raises nothing at all: the cursor advance overshoots the end, the walk
terminates, and the accumulated records — the oversized final record
included — are returned, as on `configDemoBytes` (one record, declared
size 250, buffer length 8). -/
theorem decode_error_returns_empty (content : List Nat) (acc : List Int)
    (h : ownershipWalk content (content.length + 1) 0x108 [] = .excAt acc) :
    parse_ownership content = some [] ∧
    parse_configuration configDemoBytes = some [(9, 250, 9)] := by
  refine ⟨?_, by decide⟩
  unfold parse_ownership
  rw [h]

/-- C2 amended witness: the demo ownership image raising mid-walk. -/
theorem decode_error_returns_empty_witness :
    parse_ownership ownershipDemoBytes = some [] ∧
    parse_configuration configDemoBytes = some [(9, 250, 9)] :=
  decode_error_returns_empty ownershipDemoBytes [5, 10]
    (by set_option maxRecDepth 4000 in decide)

/-- C7 counterexample: a tick evaluating title "a" to an exception and
title "b" to Installed ends with an empty statuses dict — the title after
the failing one is never evaluated or recorded, because the `except` sits
outside the `for` loop.  This refutes the claim that an exception in one
title's evaluation does not prevent the other titles of the same tick from
being evaluated and recorded. -/
theorem tick_abort_counterexample :
    tickRun [] [("a", Except.error ()), ("b", Except.ok GStatus.Installed)] = [] ∧
    (tickRun [] [("a", Except.error ()), ("b", Except.ok GStatus.Installed)]).lookup "b" =
      none := by
  exact ⟨rfl, rfl⟩

/-- C7 amended: an exception during one title's evaluation is caught — the
polling loop survives — but the catch is at tick level: the statuses
recorded before the failure are kept, and the remaining titles of that
tick are skipped (their statuses stay whatever they were), rather than
being evaluated and recorded. -/
theorem tick_aborts_remaining (pre : List (String × GStatus))
    (good : List (String × Except Unit GStatus)) (bad : String)
    (rest : List (String × Except Unit GStatus))
    (hgood : ∀ p ∈ good, evalOk p.2 = true) :
    tickRun pre (good ++ (bad, Except.error ()) :: rest) = tickRun pre good := by
  induction good generalizing pre with
  | nil => rfl
  | cons p good ih =>
      have hp := hgood p (List.mem_cons_self p good)
      match p, hp with
      | (lid, Except.ok st), _ =>
          simp only [List.cons_append, tickRun]
          exact ih _ (fun q hq => hgood q (List.mem_cons_of_mem _ hq))
      | (lid, Except.error e), hp => exact absurd hp (by simp [evalOk])

/-- C7 amended witness: one successful title, then a failing one, then one
more title that the tick skips. -/
theorem tick_aborts_remaining_witness :
    tickRun [] ([("a", Except.ok GStatus.Installed)] ++
        ("b", Except.error ()) :: [("c", Except.ok GStatus.Running)]) =
      tickRun [] [("a", Except.ok GStatus.Installed)] :=
  tick_aborts_remaining [] [("a", Except.ok GStatus.Installed)] "b"
    [("c", Except.ok GStatus.Running)] (by decide)

/-- C3: the polling tick does not write into a fresh mapping — the
`statuses = {}` of src/local.py:307 sits outside `while True`, so every
tick mutates the same dict object in place and src/local.py:330
re-publishes the same reference.  Evaluated at the failing input: tick 1
records titles "a","b" as Installed and a reader captures
`self.statuses`; tick 2 re-evaluates both to NotInstalled, and between
tick 2's two writes the reader observes, through the captured reference,
the mixed mapping a ↦ NotInstalled, b ↦ Installed — neither the fully-old
nor the fully-new snapshot, refuting the copy-on-write replacement the
spec describes (the claim is right about the intent; the code is the
slip). -/
theorem statuses_alias_partial_observation :
    (tick notifierInit [("a", GStatus.Installed), ("b", GStatus.Installed)]).publishedRef =
      (tick (tick notifierInit [("a", GStatus.Installed), ("b", GStatus.Installed)])
        [("a", GStatus.NotInstalled), ("b", GStatus.NotInstalled)]).publishedRef ∧
    readRef (tick notifierInit [("a", GStatus.Installed), ("b", GStatus.Installed)])
        (tick notifierInit [("a", GStatus.Installed), ("b", GStatus.Installed)]).publishedRef =
      [("a", GStatus.Installed), ("b", GStatus.Installed)] ∧
    readRef
        (tickWrites (tick notifierInit [("a", GStatus.Installed), ("b", GStatus.Installed)])
          [("a", GStatus.NotInstalled)])
        (tick notifierInit [("a", GStatus.Installed), ("b", GStatus.Installed)]).publishedRef =
      [("a", GStatus.NotInstalled), ("b", GStatus.Installed)] ∧
    ([("a", GStatus.NotInstalled), ("b", GStatus.Installed)] : List (String × GStatus)) ≠
      [("a", GStatus.Installed), ("b", GStatus.Installed)] ∧
    ([("a", GStatus.NotInstalled), ("b", GStatus.Installed)] : List (String × GStatus)) ≠
      [("a", GStatus.NotInstalled), ("b", GStatus.NotInstalled)] := by
  refine ⟨rfl, rfl, rfl, by decide, by decide⟩
